import Mathlib

/-!
Shallow embedding of `src/rascaline-torch/src/autograd.cpp` (the custom
forward/backward autograd bridge for the rascaline descriptor calculator),
together with theorems checking the natural-language specification against it.

Modelling conventions:
* torch tensors are modelled as a flat row-major list of rationals together
  with a list of sizes and a `requires_grad` flag; double-precision arithmetic
  is modelled by exact rational arithmetic (the claims are about where sums
  land and which dot products are taken, not about rounding);
* equistore `Labels` are modelled as the column names plus the flat row-major
  list of 32-bit integer entries (modelled as `Int`), exactly as the C++ code
  reads them through `data_ptr<int32_t>()`;
* C++ exceptions are modelled with `Except Err`: `C10_THROW_ERROR(ValueError, ...)`
  becomes `Err.valueError` and the `always_assert` macro (which throws
  `std::runtime_error`) becomes `Err.assertError`;
* out-of-bounds raw-pointer reads (undefined behaviour in C++) are modelled by
  `List.getD _ _ 0`; the out-of-bounds element access `systems[0]` on an empty
  vector is modelled by `Option` (`none` = undefined behaviour);
* quoted single characters inside C++ error messages are dropped, the rest of
  each message is kept verbatim.
-/

namespace RascalineTorch

attribute [local semireducible] Rat.add Rat.mul

/-- One atomic structure as seen by this file: `use_native_system()` and
`size()` (number of atoms) are the only observations `autograd.cpp` makes. -/
structure Sys where
  use_native : Bool
  size : Nat
deriving DecidableEq, Repr

/-- Errors thrown by the C++ code: `Err.valueError` for `C10_THROW_ERROR(ValueError, msg)`
and `Err.assertError` for a failed `always_assert` (a `std::runtime_error`). -/
inductive Err where
  | valueError : String → Err
  | assertError : String → Err
deriving DecidableEq, Repr

/-- Equistore labels: named integer columns. `values` is the flat row-major
array of entries (row `r`, column `c` lives at `r * names.length + c`),
mirroring the `data_ptr<int32_t>()` access in the C++ code. -/
structure Labels where
  names : List String
  values : List Int
deriving DecidableEq, Repr

/-- Row count of a labels object (`count()` in equistore). -/
def Labels.count (l : Labels) : Nat := l.values.length / l.names.length

/-- A torch tensor: sizes, flat row-major data, autograd flag. -/
structure Tensor where
  sizes : List Nat
  data : List ℚ
  requires_grad : Bool
deriving DecidableEq, Repr

/-- A gradient sub-block of a tensor block (values + samples + components +
properties); gradient sub-blocks carry no nested gradients of their own in
this code path. -/
structure GradBlock where
  values : Tensor
  samples : Labels
  components : List Labels
  properties : Labels
deriving DecidableEq, Repr

/-- One block of a tensor map: values tensor, samples labels, components and
properties metadata, and named gradient sub-blocks. -/
structure TensorBlock where
  values : Tensor
  samples : Labels
  components : List Labels
  properties : Labels
  gradients : List (String × GradBlock)
deriving DecidableEq, Repr

/-- Lookup of a named gradient sub-block (`block->gradient(parameter)`). -/
def TensorBlock.gradient (b : TensorBlock) (parameter : String) : Option GradBlock :=
  (b.gradients.find? (fun g => g.1 == parameter)).map (fun g => g.2)

/-- A tensor map: keys labels plus one block per key
(`block_by_id(i)` is `blocks.getD i _`; `keys()->count()` equals `blocks.length`). -/
structure TensorMap where
  keys : Labels
  blocks : List TensorBlock
deriving DecidableEq, Repr

/-- Calculation options handed to the calculator (`rascaline::CalculationOptions`);
`selected_properties` and `selected_samples` are left unset by this code (TODO
comments in the source) and are omitted. -/
structure CalculationOptions where
  gradients : List String
  use_native_system : Bool
deriving DecidableEq, Repr

/-- The external calculator (`CalculatorHolder::compute_impl`), opaque to this
file: a pure function from systems and options to a tensor map. -/
def Calculator : Type := List Sys → CalculationOptions → TensorMap

/-- The autograd context as populated by `RascalineAutograd::forward`:
`save_for_backward({all_positions, all_cells})`, plus the `saved_data` entries
`structures_start`, `positions_gradients`, `cell_gradients` and `samples`
(the last three present only when the corresponding branch stored them). -/
structure AutogradContext where
  saved_positions : Tensor
  saved_cells : Tensor
  structures_start : List Int
  positions_gradients : Option (List GradBlock)
  cell_gradients : Option (List GradBlock)
  samples : Option (List Labels)
deriving DecidableEq, Repr

/-- Result of a successful forward call: the per-block values tensors (the
function result), the populated context, and the tensor map written through
the `tensor_map` out-parameter. -/
structure ForwardOut where
  values_by_block : List Tensor
  ctx : AutogradContext
  tensor_map : TensorMap
deriving DecidableEq, Repr

/-- Translation of `all_systems_use_native`: reads `systems[0]` unconditionally
(undefined behaviour on an empty vector, modelled as `none`), then checks every
system against it, throwing a `ValueError` on disagreement. -/
def all_systems_use_native (systems : List Sys) : Option (Except Err Bool) :=
  match systems.head? with
  | none => none
  | some first =>
    if systems.all (fun system => system.use_native == first.use_native) then
      some (Except.ok first.use_native)
    else
      some (Except.error (Err.valueError
        "either all or none of the systems should have pre-defined neighbor lists"))

/-- Translation of the `structures_start` computation in `forward` (lines
96–101): push the running start index for each system, then advance it by the
system's size. -/
def structuresStart (systems : List Sys) : List Int :=
  (systems.foldl
    (fun acc system => (acc.1 ++ [acc.2], acc.2 + (system.size : Int)))
    (([] : List Int), (0 : Int))).1

/-- Translation of `extract_gradient_blocks`: for every block of the tensor
map, look up the named gradient and rebuild a standalone block from its
values, samples, components and properties. `none` models the error path where
a block lacks the requested gradient. -/
def extract_gradient_blocks (tensor : TensorMap) (parameter : String) :
    Option (List GradBlock) :=
  tensor.blocks.mapM (fun block =>
    (block.gradient parameter).map (fun gradient =>
      GradBlock.mk gradient.values gradient.samples gradient.components gradient.properties))

/-- Derivative channels handed to the calculator (lines 75–81 of `forward`):
"positions" when requested or when the positions tensor requires grad, then
"cell" when requested or when the cell tensor requires grad. -/
def computedGradients (all_positions all_cells : Tensor)
    (forward_gradients : List String) : List String :=
  (if forward_gradients.contains "positions" || all_positions.requires_grad
    then ["positions"] else []) ++
  (if forward_gradients.contains "cell" || all_cells.requires_grad
    then ["cell"] else [])

/-- Translation of the `all_forward_gradients` computation (lines 84–89):
whether every computed gradient was explicitly requested. -/
def allForwardGradients (forward_gradients gradients : List String) : Bool :=
  gradients.all (fun parameter => forward_gradients.contains parameter)

/-- Builder for the fresh tensor map of forward's step 9 (lines 153–174): each
new block keeps the original values, samples, components and properties, and
receives (`add_gradient`) exactly the explicitly requested gradients. -/
def rebuildTensorMap (descriptor : TensorMap) (forward_gradients : List String) :
    Option TensorMap :=
  (descriptor.blocks.mapM (fun (block : TensorBlock) =>
    (forward_gradients.mapM (fun parameter =>
      (block.gradient parameter).map (fun gradient => (parameter, gradient)))).map
    (fun new_gradients => TensorBlock.mk block.values block.samples
      block.components block.properties new_gradients))).map
  (fun new_blocks => TensorMap.mk descriptor.keys new_blocks)

/-- Context population of forward's step 8 (lines 113–147): always store
`structures_start`; store the positions gradient blocks when the positions
tensor requires grad; store the cell gradient blocks and every block's samples
when the cell tensor requires grad. -/
def buildContext (all_positions all_cells : Tensor) (structures_start : List Int)
    (descriptor : TensorMap) : Option AutogradContext :=
  (if all_positions.requires_grad then
      (extract_gradient_blocks descriptor "positions").map some
    else some none).bind (fun positions_gradients =>
  (if all_cells.requires_grad then
      (extract_gradient_blocks descriptor "cell").map some
    else some none).map (fun cell_gradients =>
    AutogradContext.mk all_positions all_cells structures_start
      positions_gradients cell_gradients
      (if all_cells.requires_grad then
        some (descriptor.blocks.map (fun block => block.samples))
      else none)))

/-- Translation of `RascalineAutograd::forward`. The first component counts
how many times the external calculator was invoked (0 or 1). `none` in the
second component models undefined behaviour (empty system list reaching
`systems[0]`, or a calculator output missing a gradient block the code reads). -/
def RascalineAutograd.forward (all_positions all_cells : Tensor)
    (calculator : Calculator) (systems : List Sys)
    (forward_gradients : List String) :
    Nat × Option (Except Err ForwardOut) :=
  match forward_gradients.find?
      (fun parameter => parameter != "positions" && parameter != "cell") with
  | some parameter =>
    (0, some (Except.error (Err.valueError
      ("invalid parameter in forward gradients: " ++ parameter))))
  | none =>
    let gradients := computedGradients all_positions all_cells forward_gradients
    let all_forward_gradients := allForwardGradients forward_gradients gradients
    match all_systems_use_native systems with
    | none => (0, none)
    | some (Except.error e) => (0, some (Except.error e))
    | some (Except.ok use_native) =>
      let structures_start := structuresStart systems
      let descriptor := calculator systems (CalculationOptions.mk gradients use_native)
      let values_by_block := descriptor.blocks.map (fun block => block.values)
      let result : Option ForwardOut :=
        (buildContext all_positions all_cells structures_start descriptor).bind
          (fun ctx =>
            (if all_forward_gradients then some descriptor
              else rebuildTensorMap descriptor forward_gradients).map
            (fun tensor_map => ForwardOut.mk values_by_block ctx tensor_map))
      (1, result.map Except.ok)

/-- Product of all sizes after the first: the `dot_dimensions` computation
(component × property axis size) done on `grad_output.sizes()`. -/
def listProd (l : List Nat) : Nat := l.foldl (fun a b => a * b) 1

/-- Accumulating dot product over `n` entries, mirroring the innermost
`for i < dot_dimensions` loops. -/
def dotRange (n : Nat) (f : Nat → ℚ) : ℚ := ((List.range n).map f).sum

/-- In-place accumulation `ptr[i] += v` on a flat buffer (an out-of-bounds
write, undefined behaviour in C++, leaves the buffer unchanged). -/
def addAt (l : List ℚ) (i : Nat) (v : ℚ) : List ℚ := l.set i (l.getD i 0 + v)

/-- Sequence of scatter-accumulations: fold `addAt` over an update list. -/
def scatter (l : List ℚ) (us : List (Nat × ℚ)) : List ℚ :=
  us.foldl (fun acc u => addAt acc u.1 u.2) l

/-- Sum of the update values targeting flat index `p`. -/
def sumAt (us : List (Nat × ℚ)) (p : Nat) : ℚ :=
  (us.map (fun u => if u.1 = p then u.2 else 0)).sum

/-- Zero tensor of the same shape (`torch::zeros_like`). -/
def zeros_like (t : Tensor) : Tensor :=
  Tensor.mk t.sizes (List.replicate t.data.length 0) false

/-- Flat target index of one positions-path accumulation:
`global_atom_i * 3 + direction` with
`global_atom_i = structures_start[structure_i] + atom_i`, the structure and
atom indices read from gradient-sample row `r` (columns 1 and 2). -/
def posTarget (structures_start : List Int) (samples : Labels) (r d : Nat) : Nat :=
  let structure_i := (samples.values.getD (r * 3 + 1) 0).toNat
  let atom_i := samples.values.getD (r * 3 + 2) 0
  ((structures_start.getD structure_i 0) + atom_i).toNat * 3 + d

/-- Value of one positions-path accumulation: the dot product over the
flattened component × property axis of the saved Jacobian row
`forward_grad[(r*3 + d) * dd + i]` against the adjoint row
`grad_values[sample_i * dd + i]`, `sample_i` read from column 0 of row `r`. -/
def posContrib (dd : Nat) (forward_grad grad_values : List ℚ)
    (samples : Labels) (r d : Nat) : ℚ :=
  let sample_i := (samples.values.getD (r * 3 + 0) 0).toNat
  dotRange dd (fun i =>
    forward_grad.getD ((r * 3 + d) * dd + i) 0 *
    grad_values.getD (sample_i * dd + i) 0)

/-- Translation of the per-block body of the positions loop (lines 220–267):
check the sample-column layout, then scatter-accumulate over every
gradient-sample row and spatial direction. -/
def backwardPositionsBlock (structures_start : List Int) (acc : List ℚ)
    (gradient : GradBlock) (grad_output : Tensor) : Except Err (List ℚ) :=
  let samples := gradient.samples
  if samples.names = ["sample", "structure", "atom"] then
    let forward_grad := gradient.values.data
    let grad_values := grad_output.data
    let dot_dimensions := listProd grad_output.sizes.tail
    Except.ok ((List.range samples.count).foldl (fun acc grad_sample_i =>
      (List.range 3).foldl (fun acc direction =>
        addAt acc (posTarget structures_start samples grad_sample_i direction)
          (posContrib dot_dimensions forward_grad grad_values samples
            grad_sample_i direction)) acc) acc)
  else
    Except.error (Err.assertError
      "samples->names() == [sample, structure, atom]")

/-- Translation of the positions branch of `backward` (lines 212–269): fetch
the saved gradient blocks, check their count, zero-initialise the gradient
from the positions tensor's shape, and run the per-block scatter loop. -/
def computePositionsGrad (ctx : AutogradContext) (grad_outputs : List Tensor) :
    Except Err Tensor :=
  match ctx.positions_gradients with
  | none => Except.error (Err.assertError "saved_data missing positions_gradients")
  | some positions_gradients =>
    if positions_gradients.length = grad_outputs.length then
      let init := zeros_like ctx.saved_positions
      match (positions_gradients.zip grad_outputs).foldlM
          (fun acc bg => backwardPositionsBlock ctx.structures_start acc bg.1 bg.2)
          init.data with
      | Except.error e => Except.error e
      | Except.ok data => Except.ok (Tensor.mk init.sizes data false)
    else
      Except.error (Err.assertError "positions_gradients.size() == n_blocks")

/-- Flat target index of one cell-path accumulation:
`(structure_i * 3 + direction_1) * 3 + direction_2`, where `structure_i` is
looked up from the block's values samples (row `sample_i`, the located
structure column), and `sample_i` is read from gradient-sample row `r`
(single column). -/
def cellTarget (block_samples : Labels) (structure_dimension : Nat)
    (samples : Labels) (r d1 d2 : Nat) : Nat :=
  let sample_i := (samples.values.getD r 0).toNat
  let structure_i := (block_samples.values.getD
    (sample_i * block_samples.names.length + structure_dimension) 0).toNat
  (structure_i * 3 + d1) * 3 + d2

/-- Value of one cell-path accumulation: the dot product over the flattened
component × property axis of the saved Jacobian entry at leading offset
`(r*3 + d2)*3 + d1` against the adjoint row at `sample_i`. -/
def cellContrib (dd : Nat) (forward_grad grad_values : List ℚ)
    (samples : Labels) (r d1 d2 : Nat) : ℚ :=
  let sample_i := (samples.values.getD r 0).toNat
  dotRange dd (fun i =>
    forward_grad.getD (((r * 3 + d2) * 3 + d1) * dd + i) 0 *
    grad_values.getD (sample_i * dd + i) 0)

/-- Translation of the per-block body of the cell loop (lines 297–348): check
the values-samples layout against the first block, check the gradient
sample-column layout, then scatter-accumulate over every gradient-sample row
and pair of directions. -/
def backwardCellBlock (first_sample_names : List String)
    (structure_dimension : Nat) (acc : List ℚ) (gradient : GradBlock)
    (block_samples : Labels) (grad_output : Tensor) : Except Err (List ℚ) :=
  if first_sample_names = block_samples.names then
    let samples := gradient.samples
    if samples.names = ["sample"] then
      let forward_grad := gradient.values.data
      let grad_values := grad_output.data
      let dot_dimensions := listProd grad_output.sizes.tail
      Except.ok ((List.range samples.count).foldl (fun acc grad_sample_i =>
        (List.range 3).foldl (fun acc direction_1 =>
          (List.range 3).foldl (fun acc direction_2 =>
            addAt acc
              (cellTarget block_samples structure_dimension samples
                grad_sample_i direction_1 direction_2)
              (cellContrib dot_dimensions forward_grad grad_values samples
                grad_sample_i direction_1 direction_2)) acc) acc) acc)
    else
      Except.error (Err.assertError "samples->names() == [sample]")
  else
    Except.error (Err.assertError "first_sample_names == block_samples->names()")

/-- Translation of the cell branch of `backward` (lines 272–349): fetch the
saved gradient blocks and samples, check their counts, zero-initialise the
gradient from the cell tensor's shape, locate the structure column in the
first block's samples (a `ValueError` when absent), and run the per-block
scatter loop. -/
def computeCellGrad (ctx : AutogradContext) (grad_outputs : List Tensor) :
    Except Err Tensor :=
  match ctx.cell_gradients with
  | none => Except.error (Err.assertError "saved_data missing cell_gradients")
  | some cell_gradients =>
    if cell_gradients.length = grad_outputs.length then
      match ctx.samples with
      | none => Except.error (Err.assertError "saved_data missing samples")
      | some all_samples =>
        if all_samples.length = grad_outputs.length then
          let init := zeros_like ctx.saved_cells
          let first_sample_names := (all_samples.getD 0 (Labels.mk [] [])).names
          match first_sample_names.findIdx? (fun name => name == "structure") with
          | none => Except.error (Err.valueError
              "could not find structure in the samples, this calculator is missing it")
          | some structure_dimension =>
            match ((cell_gradients.zip all_samples).zip grad_outputs).foldlM
                (fun acc bg => backwardCellBlock first_sample_names
                  structure_dimension acc bg.1.1 bg.1.2 bg.2)
                init.data with
            | Except.error e => Except.error e
            | Except.ok data => Except.ok (Tensor.mk init.sizes data false)
        else
          Except.error (Err.assertError "all_samples.size() == n_blocks")
    else
      Except.error (Err.assertError "cell_gradients.size() == n_blocks")

/-- Translation of `RascalineAutograd::backward`: on zero adjoints return six
undefined tensors (no gradient); otherwise run the positions branch when the
saved positions tensor requires grad, the cell branch when the saved cell
tensor requires grad, and return the two gradients followed by four
"no gradient" placeholders. -/
def RascalineAutograd.backward (ctx : AutogradContext)
    (grad_outputs : List Tensor) : Except Err (List (Option Tensor)) :=
  if grad_outputs.length = 0 then
    Except.ok [none, none, none, none, none, none]
  else
    match (if ctx.saved_positions.requires_grad then
        (computePositionsGrad ctx grad_outputs).map some
      else Except.ok none) with
    | Except.error e => Except.error e
    | Except.ok positions_grad =>
      match (if ctx.saved_cells.requires_grad then
          (computeCellGrad ctx grad_outputs).map some
        else Except.ok none) with
      | Except.error e => Except.error e
      | Except.ok cell_grad =>
        Except.ok [positions_grad, cell_grad, none, none, none, none]

/-- Update list generated by one block of the positions loop: one accumulation
per gradient-sample row and spatial direction. -/
def positionsBlockUpdates (structures_start : List Int) (gradient : GradBlock)
    (grad_output : Tensor) : List (Nat × ℚ) :=
  let dot_dimensions := listProd grad_output.sizes.tail
  (List.range gradient.samples.count).flatMap (fun r =>
    (List.range 3).map (fun d =>
      (posTarget structures_start gradient.samples r d,
       posContrib dot_dimensions gradient.values.data grad_output.data
         gradient.samples r d)))

/-- Update list generated by the whole positions loop over all blocks. -/
def positionsUpdates (structures_start : List Int)
    (pairs : List (GradBlock × Tensor)) : List (Nat × ℚ) :=
  pairs.flatMap (fun bg => positionsBlockUpdates structures_start bg.1 bg.2)

/-- Update list generated by one block of the cell loop: one accumulation per
gradient-sample row and pair of spatial directions. -/
def cellBlockUpdates (structure_dimension : Nat) (gradient : GradBlock)
    (block_samples : Labels) (grad_output : Tensor) : List (Nat × ℚ) :=
  let dot_dimensions := listProd grad_output.sizes.tail
  (List.range gradient.samples.count).flatMap (fun r =>
    (List.range 3).flatMap (fun d1 =>
      (List.range 3).map (fun d2 =>
        (cellTarget block_samples structure_dimension gradient.samples r d1 d2,
         cellContrib dot_dimensions gradient.values.data grad_output.data
           gradient.samples r d1 d2))))

/-- Update list generated by the whole cell loop over all blocks. -/
def cellUpdates (structure_dimension : Nat)
    (triples : List ((GradBlock × Labels) × Tensor)) : List (Nat × ℚ) :=
  triples.flatMap (fun bg =>
    cellBlockUpdates structure_dimension bg.1.1 bg.1.2 bg.2)

/-- Specification-side recursion for the running start indices: the offsets of
the systems in order, beginning at `c`. -/
def offsetsFrom (c : Int) : List Sys → List Int
  | [] => []
  | system :: rest => c :: offsetsFrom (c + (system.size : Int)) rest

/-! ### Concrete example data (used by witnesses and counterexamples) -/

/-- Example global positions tensor: one structure with 2 atoms. -/
def exPositions : Tensor := Tensor.mk [2, 3] [0, 0, 0, 0, 0, 0] true

/-- Example positions tensor with `requires_grad` unset. -/
def exPositionsNoGrad : Tensor := Tensor.mk [2, 3] [0, 0, 0, 0, 0, 0] false

/-- Example global cell tensor: one 3×3 cell. -/
def exCells : Tensor := Tensor.mk [1, 3, 3] [0, 0, 0, 0, 0, 0, 0, 0, 0] true

/-- Example cell tensor with `requires_grad` unset. -/
def exCellsNoGrad : Tensor := Tensor.mk [1, 3, 3] [0, 0, 0, 0, 0, 0, 0, 0, 0] false

/-- Example positions-gradient sub-block: 2 gradient-sample rows (both reading
adjoint sample 0, for atoms 0 and 1 of structure 0), 3 directions, one
property (`dot_dimensions = 1`). -/
def exPosGradBlock : GradBlock := GradBlock.mk
  (Tensor.mk [2, 3, 1] [1, 2, 3, 4, 5, 6] false)
  (Labels.mk ["sample", "structure", "atom"] [0, 0, 0, 0, 0, 1])
  [] (Labels.mk ["property"] [0])

/-- Example positions-gradient sub-block whose sample columns are in the wrong
order. -/
def exBadPosGradBlock : GradBlock := GradBlock.mk
  (Tensor.mk [2, 3, 1] [1, 2, 3, 4, 5, 6] false)
  (Labels.mk ["sample", "atom", "structure"] [0, 0, 0, 0, 1, 0])
  [] (Labels.mk ["property"] [0])

/-- Example cell-gradient sub-block: one gradient-sample row, 3×3 directions,
one property. -/
def exCellGradBlock : GradBlock := GradBlock.mk
  (Tensor.mk [1, 3, 3, 1] [1, 2, 3, 4, 5, 6, 7, 8, 9] false)
  (Labels.mk ["sample"] [0]) [] (Labels.mk ["property"] [0])

/-- Example per-block values samples carrying a `structure` column. -/
def exBlockSamples : Labels := Labels.mk ["sample", "structure", "atom"] [0, 0, 0]

/-- Example per-block values samples without a `structure` column. -/
def exBadBlockSamples : Labels := Labels.mk ["center"] [0]

/-- Example adjoint: one sample, one property. -/
def exAdjoint : Tensor := Tensor.mk [1, 1] [2] false

/-- Example context saved by a forward pass that needed positions gradients. -/
def exCtxPos : AutogradContext := AutogradContext.mk exPositions exCellsNoGrad [0]
  (some [exPosGradBlock]) none none

/-- Example context like `exCtxPos` with a malformed sample-column layout. -/
def exCtxPosBad : AutogradContext := AutogradContext.mk exPositions exCellsNoGrad [0]
  (some [exBadPosGradBlock]) none none

/-- Example context saved by a forward pass that needed cell gradients. -/
def exCtxCell : AutogradContext := AutogradContext.mk exPositionsNoGrad exCells [0]
  none (some [exCellGradBlock]) (some [exBlockSamples])

/-- Example context like `exCtxCell` whose samples lack a `structure` column. -/
def exCtxCellNoStruct : AutogradContext := AutogradContext.mk exPositionsNoGrad exCells
  [0] none (some [exCellGradBlock]) (some [exBadBlockSamples])

/-- Example context saved by a forward pass that needed no gradients at all. -/
def exCtxNoGrad : AutogradContext := AutogradContext.mk exPositionsNoGrad exCellsNoGrad
  [0] none none none

/-- Example system list: one structure with 2 atoms, no pre-defined neighbor
lists. -/
def exSystems : List Sys := [Sys.mk false 2]

/-- Example output block of the calculator, with both gradient sub-blocks. -/
def exBlock : TensorBlock := TensorBlock.mk
  (Tensor.mk [1, 1] [7] false) exBlockSamples [] (Labels.mk ["property"] [0])
  [("positions", exPosGradBlock), ("cell", exCellGradBlock)]

/-- Example calculator output: a single block. -/
def exDescriptor : TensorMap := TensorMap.mk (Labels.mk ["key"] [0]) [exBlock]

/-- Example calculator: ignores its inputs and returns `exDescriptor`. -/
def exCalculator : Calculator := fun _ _ => exDescriptor

/-- Output block of the mixed-channels example as the user sees it: only the
requested positions gradient is attached. -/
def exVisibleBlock : TensorBlock := TensorBlock.mk
  (Tensor.mk [1, 1] [7] false) exBlockSamples [] (Labels.mk ["property"] [0])
  [("positions", exPosGradBlock)]

/-- Forward output of the mixed-channels example: positions requested
explicitly while the cell tensor requires grad. -/
def exForwardOutMixed : ForwardOut := ForwardOut.mk
  [Tensor.mk [1, 1] [7] false] exCtxCell
  (TensorMap.mk (Labels.mk ["key"] [0]) [exVisibleBlock])

/-- Forward output when positions gradients are requested explicitly and no
input tensor requires grad: the calculator output is exposed unmodified and
the context keeps no gradient blocks. -/
def exForwardOutRequested : ForwardOut := ForwardOut.mk
  [Tensor.mk [1, 1] [7] false] exCtxNoGrad exDescriptor

/-- Decidable equality for `Except`, used to evaluate the embedding on the
concrete examples. -/
instance {e a : Type} [DecidableEq e] [DecidableEq a] : DecidableEq (Except e a)
  | Except.ok x, Except.ok y =>
    if h : x = y then .isTrue (congrArg Except.ok h)
    else .isFalse (fun hx => h (Except.ok.inj hx))
  | Except.error x, Except.error y =>
    if h : x = y then .isTrue (congrArg Except.error h)
    else .isFalse (fun hx => h (Except.error.inj hx))
  | Except.ok _, Except.error _ => .isFalse (fun hx => Except.noConfusion hx)
  | Except.error _, Except.ok _ => .isFalse (fun hx => Except.noConfusion hx)

/-! ### Generic facts about scatter-accumulation -/

theorem addAt_length (l : List ℚ) (i : Nat) (v : ℚ) : (addAt l i v).length = l.length := by
  simp [addAt]

theorem addAt_getD (l : List ℚ) (i p : Nat) (v : ℚ) (hp : p < l.length) :
    (addAt l i v).getD p 0 = if i = p then l.getD p 0 + v else l.getD p 0 := by
  rw [addAt, List.getD_eq_getElem?_getD, List.getD_eq_getElem?_getD, List.getElem?_set]
  by_cases h : i = p
  · subst h
    simp [hp]
  · simp [h]

theorem scatter_nil (l : List ℚ) : scatter l [] = l := rfl

theorem scatter_cons (l : List ℚ) (u : Nat × ℚ) (us : List (Nat × ℚ)) :
    scatter l (u :: us) = scatter (addAt l u.1 u.2) us := rfl

theorem scatter_append (l : List ℚ) (us vs : List (Nat × ℚ)) :
    scatter l (us ++ vs) = scatter (scatter l us) vs := by
  simp [scatter, List.foldl_append]

theorem scatter_length (l : List ℚ) (us : List (Nat × ℚ)) :
    (scatter l us).length = l.length := by
  induction us generalizing l with
  | nil => rfl
  | cons u us ih => rw [scatter_cons, ih, addAt_length]

theorem sumAt_nil (p : Nat) : sumAt [] p = 0 := rfl

theorem sumAt_cons (u : Nat × ℚ) (us : List (Nat × ℚ)) (p : Nat) :
    sumAt (u :: us) p = (if u.1 = p then u.2 else 0) + sumAt us p := by
  simp [sumAt]

theorem sumAt_append (us vs : List (Nat × ℚ)) (p : Nat) :
    sumAt (us ++ vs) p = sumAt us p + sumAt vs p := by
  simp [sumAt]

theorem sumAt_flatMap {α : Type} (xs : List α) (f : α → List (Nat × ℚ)) (p : Nat) :
    sumAt (xs.flatMap f) p = (xs.map (fun x => sumAt (f x) p)).sum := by
  induction xs with
  | nil => rfl
  | cons x xs ih => rw [List.flatMap_cons, sumAt_append, ih, List.map_cons, List.sum_cons]

theorem sumAt_map {α : Type} (xs : List α) (f : α → Nat × ℚ) (p : Nat) :
    sumAt (xs.map f) p = (xs.map (fun x => if (f x).1 = p then (f x).2 else 0)).sum := by
  simp only [sumAt, List.map_map]
  rfl

theorem scatter_getD (l : List ℚ) (us : List (Nat × ℚ)) (p : Nat) (hp : p < l.length) :
    (scatter l us).getD p 0 = l.getD p 0 + sumAt us p := by
  induction us generalizing l with
  | nil => simp [scatter_nil, sumAt_nil]
  | cons u us ih =>
    rw [scatter_cons, ih _ (by rw [addAt_length]; exact hp),
      addAt_getD _ _ _ _ hp, sumAt_cons]
    by_cases h : u.1 = p
    · simp only [if_pos h]; ring
    · simp only [if_neg h]; ring

theorem foldlOverFlatMap {α β γ : Type} (xs : List α) (f : α → List β)
    (g : γ → β → γ) (a : γ) :
    (xs.flatMap f).foldl g a = xs.foldl (fun a x => (f x).foldl g a) a := by
  induction xs generalizing a with
  | nil => rfl
  | cons x xs ih => rw [List.flatMap_cons, List.foldl_append, List.foldl_cons, ih]

/-! ### Characterisation of the positions backward path -/

theorem backwardPositionsBlock_eq_scatter (structures_start : List Int)
    (acc : List ℚ) (gradient : GradBlock) (grad_output : Tensor)
    (h : gradient.samples.names = ["sample", "structure", "atom"]) :
    backwardPositionsBlock structures_start acc gradient grad_output =
      Except.ok (scatter acc (positionsBlockUpdates structures_start gradient grad_output)) := by
  rw [backwardPositionsBlock, if_pos h]
  simp only [positionsBlockUpdates, scatter, foldlOverFlatMap, List.foldl_map]

theorem backwardPositionsBlock_error (structures_start : List Int)
    (acc : List ℚ) (gradient : GradBlock) (grad_output : Tensor) (e : Err)
    (h : backwardPositionsBlock structures_start acc gradient grad_output =
      Except.error e) :
    gradient.samples.names ≠ ["sample", "structure", "atom"] ∧
    e = Err.assertError "samples->names() == [sample, structure, atom]" := by
  by_cases hn : gradient.samples.names = ["sample", "structure", "atom"]
  · rw [backwardPositionsBlock_eq_scatter _ _ _ _ hn] at h
    cases h
  · rw [backwardPositionsBlock, if_neg hn] at h
    exact ⟨hn, (Except.error.inj h).symm⟩

theorem positionsFold_ok (structures_start : List Int)
    (pairs : List (GradBlock × Tensor)) (acc out : List ℚ)
    (h : pairs.foldlM
      (fun acc bg => backwardPositionsBlock structures_start acc bg.1 bg.2) acc =
      Except.ok out) :
    (∀ bg ∈ pairs, bg.1.samples.names = ["sample", "structure", "atom"]) ∧
    out = scatter acc (positionsUpdates structures_start pairs) := by
  induction pairs generalizing acc with
  | nil =>
    simp only [List.foldlM_nil] at h
    cases h
    exact ⟨(fun bg hbg => absurd hbg (List.not_mem_nil bg)), rfl⟩
  | cons bg pairs ih =>
    rw [List.foldlM_cons] at h
    cases hstep : backwardPositionsBlock structures_start acc bg.1 bg.2 with
    | error e =>
      rw [hstep] at h
      have h' : (Except.error e : Except Err (List ℚ)) = Except.ok out := h
      cases h'
    | ok acc' =>
      rw [hstep] at h
      have h : pairs.foldlM
          (fun acc bg => backwardPositionsBlock structures_start acc bg.1 bg.2) acc' =
          Except.ok out := h
      by_cases hn : bg.1.samples.names = ["sample", "structure", "atom"]
      · rw [backwardPositionsBlock_eq_scatter _ _ _ _ hn] at hstep
        obtain ⟨hall, hout⟩ := ih acc' h
        refine ⟨?_, ?_⟩
        · intro x hx
          cases hx with
          | head => exact hn
          | tail _ hmem => exact hall x hmem
        · have hacc' : acc' = scatter acc (positionsBlockUpdates structures_start bg.1 bg.2) :=
            (Except.ok.inj hstep).symm
          rw [hout, hacc', ← scatter_append]
          simp only [positionsUpdates, List.flatMap_cons]
      · rw [backwardPositionsBlock, if_neg hn] at hstep
        cases hstep

theorem positionsFold_error (structures_start : List Int)
    (pairs : List (GradBlock × Tensor)) (acc : List ℚ) (e : Err)
    (h : pairs.foldlM
      (fun acc bg => backwardPositionsBlock structures_start acc bg.1 bg.2) acc =
      Except.error e) :
    e = Err.assertError "samples->names() == [sample, structure, atom]" := by
  induction pairs generalizing acc with
  | nil => simp only [List.foldlM_nil] at h; cases h
  | cons bg pairs ih =>
    rw [List.foldlM_cons] at h
    cases hstep : backwardPositionsBlock structures_start acc bg.1 bg.2 with
    | error e' =>
      rw [hstep] at h
      have h' : (Except.error e' : Except Err (List ℚ)) = Except.error e := h
      cases h'
      exact (backwardPositionsBlock_error _ _ _ _ _ hstep).2
    | ok acc' =>
      rw [hstep] at h
      exact ih acc' h

theorem computePositionsGrad_ok (ctx : AutogradContext)
    (grad_outputs : List Tensor) (pg : Tensor)
    (h : computePositionsGrad ctx grad_outputs = Except.ok pg) :
    ∃ gs, ctx.positions_gradients = some gs ∧
      gs.length = grad_outputs.length ∧
      (∀ bg ∈ gs.zip grad_outputs,
        bg.1.samples.names = ["sample", "structure", "atom"]) ∧
      pg.sizes = ctx.saved_positions.sizes ∧
      pg.data = scatter (List.replicate ctx.saved_positions.data.length 0)
        (positionsUpdates ctx.structures_start (gs.zip grad_outputs)) := by
  unfold computePositionsGrad at h
  cases hgs : ctx.positions_gradients with
  | none => rw [hgs] at h; cases h
  | some gs =>
    rw [hgs] at h
    dsimp only at h
    by_cases hlen : gs.length = grad_outputs.length
    · rw [if_pos hlen] at h
      cases hfold : (gs.zip grad_outputs).foldlM
          (fun acc bg => backwardPositionsBlock ctx.structures_start acc bg.1 bg.2)
          (zeros_like ctx.saved_positions).data with
      | error e => rw [hfold] at h; cases h
      | ok data =>
        rw [hfold] at h
        obtain ⟨hall, hdata⟩ := positionsFold_ok _ _ _ _ hfold
        cases h
        exact ⟨gs, rfl, hlen, hall, rfl, hdata⟩
    · rw [if_neg hlen] at h
      cases h

/-! ### Characterisation of the cell backward path -/

theorem backwardCellBlock_eq_scatter (first_sample_names : List String)
    (structure_dimension : Nat) (acc : List ℚ) (gradient : GradBlock)
    (block_samples : Labels) (grad_output : Tensor)
    (h1 : first_sample_names = block_samples.names)
    (h2 : gradient.samples.names = ["sample"]) :
    backwardCellBlock first_sample_names structure_dimension acc gradient
      block_samples grad_output =
    Except.ok (scatter acc (cellBlockUpdates
      structure_dimension gradient block_samples grad_output)) := by
  rw [backwardCellBlock, if_pos h1]
  rw [if_pos h2]
  simp only [cellBlockUpdates, scatter, foldlOverFlatMap, List.foldl_map]

theorem backwardCellBlock_error (first_sample_names : List String)
    (structure_dimension : Nat) (acc : List ℚ) (gradient : GradBlock)
    (block_samples : Labels) (grad_output : Tensor) (e : Err)
    (h : backwardCellBlock first_sample_names structure_dimension acc gradient
      block_samples grad_output = Except.error e) :
    e = Err.assertError "first_sample_names == block_samples->names()" ∨
    e = Err.assertError "samples->names() == [sample]" := by
  by_cases h1 : first_sample_names = block_samples.names
  · by_cases h2 : gradient.samples.names = ["sample"]
    · rw [backwardCellBlock_eq_scatter _ _ _ _ _ _ h1 h2] at h
      cases h
    · rw [backwardCellBlock, if_pos h1, if_neg h2] at h
      exact Or.inr (Except.error.inj h).symm
  · rw [backwardCellBlock, if_neg h1] at h
    exact Or.inl (Except.error.inj h).symm

theorem cellFold_ok (first_sample_names : List String)
    (structure_dimension : Nat) (triples : List ((GradBlock × Labels) × Tensor))
    (acc out : List ℚ)
    (h : triples.foldlM
      (fun acc bg => backwardCellBlock first_sample_names structure_dimension
        acc bg.1.1 bg.1.2 bg.2) acc = Except.ok out) :
    (∀ bg ∈ triples, first_sample_names = bg.1.2.names ∧
      bg.1.1.samples.names = ["sample"]) ∧
    out = scatter acc (cellUpdates structure_dimension triples) := by
  induction triples generalizing acc with
  | nil =>
    simp only [List.foldlM_nil] at h
    cases h
    exact ⟨(fun bg hbg => absurd hbg (List.not_mem_nil bg)), rfl⟩
  | cons bg triples ih =>
    rw [List.foldlM_cons] at h
    cases hstep : backwardCellBlock first_sample_names structure_dimension acc
        bg.1.1 bg.1.2 bg.2 with
    | error e =>
      rw [hstep] at h
      have h' : (Except.error e : Except Err (List ℚ)) = Except.ok out := h
      cases h'
    | ok acc' =>
      rw [hstep] at h
      have h : triples.foldlM
          (fun acc bg => backwardCellBlock first_sample_names structure_dimension
            acc bg.1.1 bg.1.2 bg.2) acc' = Except.ok out := h
      by_cases h1 : first_sample_names = bg.1.2.names
      · by_cases h2 : bg.1.1.samples.names = ["sample"]
        · rw [backwardCellBlock_eq_scatter _ _ _ _ _ _ h1 h2] at hstep
          obtain ⟨hall, hout⟩ := ih acc' h
          refine ⟨?_, ?_⟩
          · intro x hx
            cases hx with
            | head => exact ⟨h1, h2⟩
            | tail _ hmem => exact hall x hmem
          · have hacc' : acc' = scatter acc (cellBlockUpdates
                structure_dimension bg.1.1 bg.1.2 bg.2) := (Except.ok.inj hstep).symm
            rw [hout, hacc', ← scatter_append]
            simp only [cellUpdates, List.flatMap_cons]
        · rw [backwardCellBlock, if_pos h1, if_neg h2] at hstep
          cases hstep
      · rw [backwardCellBlock, if_neg h1] at hstep
        cases hstep

theorem cellFold_error (first_sample_names : List String)
    (structure_dimension : Nat) (triples : List ((GradBlock × Labels) × Tensor))
    (acc : List ℚ) (e : Err)
    (h : triples.foldlM
      (fun acc bg => backwardCellBlock first_sample_names structure_dimension
        acc bg.1.1 bg.1.2 bg.2) acc = Except.error e) :
    e = Err.assertError "first_sample_names == block_samples->names()" ∨
    e = Err.assertError "samples->names() == [sample]" := by
  induction triples generalizing acc with
  | nil => simp only [List.foldlM_nil] at h; cases h
  | cons bg triples ih =>
    rw [List.foldlM_cons] at h
    cases hstep : backwardCellBlock first_sample_names structure_dimension acc
        bg.1.1 bg.1.2 bg.2 with
    | error e' =>
      rw [hstep] at h
      have h' : (Except.error e' : Except Err (List ℚ)) = Except.error e := h
      cases h'
      exact backwardCellBlock_error _ _ _ _ _ _ _ hstep
    | ok acc' =>
      rw [hstep] at h
      exact ih acc' h

theorem computeCellGrad_ok (ctx : AutogradContext)
    (grad_outputs : List Tensor) (cg : Tensor)
    (h : computeCellGrad ctx grad_outputs = Except.ok cg) :
    ∃ cgs all_samples structure_dimension,
      ctx.cell_gradients = some cgs ∧
      ctx.samples = some all_samples ∧
      cgs.length = grad_outputs.length ∧
      all_samples.length = grad_outputs.length ∧
      ((all_samples.getD 0 (Labels.mk [] [])).names.findIdx?
        (fun name => name == "structure") = some structure_dimension) ∧
      (∀ bg ∈ (cgs.zip all_samples).zip grad_outputs,
        (all_samples.getD 0 (Labels.mk [] [])).names = bg.1.2.names ∧
        bg.1.1.samples.names = ["sample"]) ∧
      cg.sizes = ctx.saved_cells.sizes ∧
      cg.data = scatter (List.replicate ctx.saved_cells.data.length 0)
        (cellUpdates structure_dimension ((cgs.zip all_samples).zip grad_outputs)) := by
  unfold computeCellGrad at h
  cases hgs : ctx.cell_gradients with
  | none => rw [hgs] at h; cases h
  | some cgs =>
    rw [hgs] at h
    dsimp only at h
    by_cases hlen : cgs.length = grad_outputs.length
    · rw [if_pos hlen] at h
      cases hss : ctx.samples with
      | none => rw [hss] at h; cases h
      | some all_samples =>
        rw [hss] at h
        dsimp only at h
        by_cases hlen2 : all_samples.length = grad_outputs.length
        · rw [if_pos hlen2] at h
          cases hfind : (all_samples.getD 0 (Labels.mk [] [])).names.findIdx?
              (fun name => name == "structure") with
          | none => rw [hfind] at h; cases h
          | some structure_dimension =>
            rw [hfind] at h
            dsimp only at h
            cases hfold : ((cgs.zip all_samples).zip grad_outputs).foldlM
                (fun acc bg => backwardCellBlock
                  (all_samples.getD 0 (Labels.mk [] [])).names
                  structure_dimension acc bg.1.1 bg.1.2 bg.2)
                (zeros_like ctx.saved_cells).data with
            | error e => rw [hfold] at h; cases h
            | ok data =>
              rw [hfold] at h
              obtain ⟨hall, hdata⟩ := cellFold_ok _ _ _ _ _ hfold
              cases h
              exact ⟨cgs, all_samples, structure_dimension, rfl, rfl, hlen, hlen2,
                hfind, hall, rfl, hdata⟩
        · rw [if_neg hlen2] at h
          cases h
    · rw [if_neg hlen] at h
      cases h

/-! ### Characterisation of backward as a whole -/

theorem backward_nil (ctx : AutogradContext) :
    RascalineAutograd.backward ctx [] =
      Except.ok [none, none, none, none, none, none] := rfl

theorem backward_ok_shape (ctx : AutogradContext) (grad_outputs : List Tensor)
    (out : List (Option Tensor)) (hne : grad_outputs ≠ [])
    (h : RascalineAutograd.backward ctx grad_outputs = Except.ok out) :
    ∃ p c, out = [p, c, none, none, none, none] ∧
      (ctx.saved_positions.requires_grad = true →
        ∃ pg, p = some pg ∧ computePositionsGrad ctx grad_outputs = Except.ok pg) ∧
      (ctx.saved_positions.requires_grad = false → p = none) ∧
      (ctx.saved_cells.requires_grad = true →
        ∃ cg, c = some cg ∧ computeCellGrad ctx grad_outputs = Except.ok cg) ∧
      (ctx.saved_cells.requires_grad = false → c = none) := by
  unfold RascalineAutograd.backward at h
  rw [if_neg (by simpa using hne)] at h
  cases hp : ctx.saved_positions.requires_grad with
  | false =>
    rw [hp] at h
    rw [if_neg Bool.false_ne_true] at h
    cases hc : ctx.saved_cells.requires_grad with
    | false =>
      rw [hc] at h
      rw [if_neg Bool.false_ne_true] at h
      cases h
      exact ⟨none, none, rfl,
        (fun hx => by cases hx), (fun _ => rfl),
        (fun hx => by cases hx), (fun _ => rfl)⟩
    | true =>
      rw [hc] at h
      rw [if_pos rfl] at h
      cases hcg : computeCellGrad ctx grad_outputs with
      | error e =>
        rw [hcg] at h
        cases h
      | ok cg =>
        rw [hcg] at h
        cases h
        exact ⟨none, some cg, rfl,
          (fun hx => by cases hx), (fun _ => rfl),
          (fun _ => ⟨cg, rfl, rfl⟩), (fun hx => by cases hx)⟩
  | true =>
    rw [hp] at h
    rw [if_pos rfl] at h
    cases hpg : computePositionsGrad ctx grad_outputs with
    | error e =>
      rw [hpg] at h
      cases h
    | ok pg =>
      rw [hpg] at h
      cases hc : ctx.saved_cells.requires_grad with
      | false =>
        rw [hc] at h
        rw [if_neg Bool.false_ne_true] at h
        cases h
        exact ⟨some pg, none, rfl,
          (fun _ => ⟨pg, rfl, rfl⟩), (fun hx => by cases hx),
          (fun hx => by cases hx), (fun _ => rfl)⟩
      | true =>
        rw [hc] at h
        rw [if_pos rfl] at h
        cases hcg : computeCellGrad ctx grad_outputs with
        | error e =>
          rw [hcg] at h
          cases h
        | ok cg =>
          rw [hcg] at h
          cases h
          exact ⟨some pg, some cg, rfl,
            (fun _ => ⟨pg, rfl, rfl⟩), (fun hx => by cases hx),
            (fun _ => ⟨cg, rfl, rfl⟩), (fun hx => by cases hx)⟩

/-! ### Characterisation of the structure offsets -/

theorem foldl_offsets (l : List Sys) (a : List Int) (c : Int) :
    (l.foldl (fun acc system => (acc.1 ++ [acc.2], acc.2 + (system.size : Int)))
      (a, c)).1 = a ++ offsetsFrom c l := by
  induction l generalizing a c with
  | nil => simp [offsetsFrom]
  | cons s rest ih =>
    rw [List.foldl_cons, offsetsFrom]
    dsimp only
    rw [ih]
    simp

theorem structuresStart_eq_offsetsFrom (systems : List Sys) :
    structuresStart systems = offsetsFrom 0 systems := by
  rw [structuresStart, foldl_offsets]
  rfl

theorem offsetsFrom_length (c : Int) (l : List Sys) :
    (offsetsFrom c l).length = l.length := by
  induction l generalizing c with
  | nil => rfl
  | cons s rest ih => simp [offsetsFrom, ih]

theorem offsetsFrom_getD (c : Int) (l : List Sys) (k : Nat) (hk : k < l.length) :
    (offsetsFrom c l).getD k 0 =
      c + ((l.take k).map (fun system => (system.size : Int))).sum := by
  induction l generalizing c k with
  | nil => cases hk
  | cons s rest ih =>
    cases k with
    | zero => simp [offsetsFrom]
    | succ k =>
      rw [offsetsFrom]
      have hk' : k < rest.length := Nat.lt_of_succ_lt_succ hk
      simp only [List.getD_cons_succ, List.take_succ_cons, List.map_cons, List.sum_cons]
      rw [ih _ _ hk']
      ring

theorem structuresStart_length (systems : List Sys) :
    (structuresStart systems).length = systems.length := by
  rw [structuresStart_eq_offsetsFrom, offsetsFrom_length]

theorem structuresStart_getD (systems : List Sys) (k : Nat)
    (hk : k < systems.length) :
    (structuresStart systems).getD k 0 =
      ((systems.take k).map (fun system => (system.size : Int))).sum := by
  rw [structuresStart_eq_offsetsFrom, offsetsFrom_getD _ _ _ hk]
  ring

/-! ### Characterisation of the forward pass -/

theorem mapM_option_forall2 {α β : Type} (f : α → Option β) :
    ∀ (xs : List α) (ys : List β), xs.mapM f = some ys →
    List.Forall₂ (fun x y => f x = some y) xs ys := by
  intro xs
  induction xs with
  | nil =>
    intro ys h
    have h' : (some [] : Option (List β)) = some ys := h
    cases h'
    exact List.Forall₂.nil
  | cons x xs ih =>
    intro ys h
    rw [List.mapM_cons] at h
    cases hf : f x with
    | none =>
      rw [hf] at h
      have h' : (none : Option (List β)) = some ys := h
      cases h'
    | some y =>
      rw [hf] at h
      cases hrest : xs.mapM f with
      | none =>
        rw [hrest] at h
        have h' : (none : Option (List β)) = some ys := h
        cases h'
      | some ys' =>
        rw [hrest] at h
        have h' : (some (y :: ys') : Option (List β)) = some ys := h
        cases h'
        exact List.Forall₂.cons hf (ih ys' hrest)

theorem gradBlock_eta_map (o : Option GradBlock) :
    o.map (fun gradient => GradBlock.mk gradient.values gradient.samples
      gradient.components gradient.properties) = o := by
  cases o <;> rfl

theorem extract_gradient_blocks_inv (tensor : TensorMap) (parameter : String)
    (gs : List GradBlock)
    (h : extract_gradient_blocks tensor parameter = some gs) :
    List.Forall₂ (fun (block : TensorBlock) (gradient : GradBlock) =>
      block.gradient parameter = some gradient) tensor.blocks gs := by
  unfold extract_gradient_blocks at h
  simp only [gradBlock_eta_map] at h
  exact mapM_option_forall2 _ _ _ h

theorem rebuilt_gradient_lookup (ob : TensorBlock) :
    ∀ (fg : List String) (new_gradients : List (String × GradBlock)),
    fg.mapM (fun parameter => (ob.gradient parameter).map
      (fun gradient => (parameter, gradient))) = some new_gradients →
    ∀ p, ((new_gradients.find? (fun g => g.1 == p)).map (fun g => g.2)) =
      (if fg.contains p then ob.gradient p else none) := by
  intro fg
  induction fg with
  | nil =>
    intro ng h p
    have h' : (some [] : Option (List (String × GradBlock))) = some ng := h
    cases h'
    simp [List.find?]
  | cons q fg ih =>
    intro ng h p
    rw [List.mapM_cons] at h
    cases hq : ob.gradient q with
    | none =>
      rw [hq] at h
      have h' : (none : Option (List (String × GradBlock))) = some ng := h
      cases h'
    | some gq =>
      rw [hq] at h
      cases hrest : fg.mapM (fun parameter => (ob.gradient parameter).map
          (fun gradient => (parameter, gradient))) with
      | none =>
        rw [hrest] at h
        have h' : (none : Option (List (String × GradBlock))) = some ng := h
        cases h'
      | some rest =>
        rw [hrest] at h
        have h' : (some ((q, gq) :: rest) : Option (List (String × GradBlock))) =
          some ng := h
        cases h'
        by_cases hqp : q = p
        · subst hqp
          simp [List.find?_cons_of_pos, hq]
        · have hbeq : (q == p) = false := beq_eq_false_iff_ne.mpr hqp
          have hbeq2 : (p == q) = false :=
            beq_eq_false_iff_ne.mpr (fun hx => hqp hx.symm)
          rw [List.find?_cons_of_neg _ (by simpa using hbeq), ih rest hrest p]
          have hcont : (q :: fg).contains p = fg.contains p := by
            rw [List.contains_cons, hbeq2, Bool.false_or]
          rw [hcont]

theorem rebuildTensorMap_inv (descriptor : TensorMap) (fg : List String)
    (tm : TensorMap) (h : rebuildTensorMap descriptor fg = some tm) :
    tm.keys = descriptor.keys ∧
    List.Forall₂ (fun (ob nb : TensorBlock) =>
      nb.values = ob.values ∧ nb.samples = ob.samples ∧
      nb.components = ob.components ∧ nb.properties = ob.properties ∧
      ∀ p, nb.gradient p = (if fg.contains p then ob.gradient p else none))
      descriptor.blocks tm.blocks := by
  unfold rebuildTensorMap at h
  cases hblocks : descriptor.blocks.mapM (fun block =>
      (fg.mapM (fun parameter => (block.gradient parameter).map
        (fun gradient => (parameter, gradient)))).map
      (fun new_gradients => TensorBlock.mk block.values block.samples
        block.components block.properties new_gradients)) with
  | none =>
    rw [hblocks] at h
    have h' : (none : Option TensorMap) = some tm := h
    cases h'
  | some new_blocks =>
    rw [hblocks] at h
    have h' : (some (TensorMap.mk descriptor.keys new_blocks) : Option TensorMap) =
      some tm := h
    cases h'
    refine ⟨rfl, ?_⟩
    refine List.Forall₂.imp ?_ (mapM_option_forall2 _ _ _ hblocks)
    intro ob nb hob
    cases hng : fg.mapM (fun parameter => (ob.gradient parameter).map
        (fun gradient => (parameter, gradient))) with
    | none =>
      rw [hng] at hob
      cases hob
    | some ngs =>
      rw [hng] at hob
      have hob' : (some (TensorBlock.mk ob.values ob.samples ob.components
        ob.properties ngs) : Option TensorBlock) = some nb := hob
      cases hob'
      exact ⟨rfl, rfl, rfl, rfl, fun p => rebuilt_gradient_lookup ob fg ngs hng p⟩

theorem buildContext_inv (ap ac : Tensor) (ss : List Int)
    (descriptor : TensorMap) (ctx : AutogradContext)
    (h : buildContext ap ac ss descriptor = some ctx) :
    ctx.saved_positions = ap ∧ ctx.saved_cells = ac ∧ ctx.structures_start = ss ∧
    (ap.requires_grad = true →
      ctx.positions_gradients = extract_gradient_blocks descriptor "positions" ∧
      (extract_gradient_blocks descriptor "positions").isSome = true) ∧
    (ap.requires_grad = false → ctx.positions_gradients = none) ∧
    (ac.requires_grad = true →
      ctx.cell_gradients = extract_gradient_blocks descriptor "cell" ∧
      (extract_gradient_blocks descriptor "cell").isSome = true ∧
      ctx.samples = some (descriptor.blocks.map (fun block => block.samples))) ∧
    (ac.requires_grad = false → ctx.cell_gradients = none ∧ ctx.samples = none) := by
  unfold buildContext at h
  cases hp : ap.requires_grad with
  | false =>
    rw [hp] at h
    cases hc : ac.requires_grad with
    | false =>
      rw [hc] at h
      have h' : (some (AutogradContext.mk ap ac ss none none none) :
        Option AutogradContext) = some ctx := h
      cases h'
      exact ⟨rfl, rfl, rfl, (fun hx => by cases hx), (fun _ => rfl),
        (fun hx => by cases hx), (fun _ => ⟨rfl, rfl⟩)⟩
    | true =>
      rw [hc] at h
      cases hcg : extract_gradient_blocks descriptor "cell" with
      | none =>
        rw [hcg] at h
        have h' : (none : Option AutogradContext) = some ctx := h
        cases h'
      | some cgs =>
        rw [hcg] at h
        have h' : (some (AutogradContext.mk ap ac ss none (some cgs)
          (some (descriptor.blocks.map (fun block => block.samples)))) :
          Option AutogradContext) = some ctx := h
        cases h'
        exact ⟨rfl, rfl, rfl, (fun hx => by cases hx), (fun _ => rfl),
          (fun _ => ⟨rfl, rfl, rfl⟩), (fun hx => by cases hx)⟩
  | true =>
    rw [hp] at h
    cases hpg : extract_gradient_blocks descriptor "positions" with
    | none =>
      rw [hpg] at h
      have h' : (none : Option AutogradContext) = some ctx := h
      cases h'
    | some pgs =>
      rw [hpg] at h
      cases hc : ac.requires_grad with
      | false =>
        rw [hc] at h
        have h' : (some (AutogradContext.mk ap ac ss (some pgs) none none) :
          Option AutogradContext) = some ctx := h
        cases h'
        exact ⟨rfl, rfl, rfl, (fun _ => ⟨rfl, rfl⟩),
          (fun hx => by cases hx), (fun hx => by cases hx), (fun _ => ⟨rfl, rfl⟩)⟩
      | true =>
        rw [hc] at h
        cases hcg : extract_gradient_blocks descriptor "cell" with
        | none =>
          rw [hcg] at h
          have h' : (none : Option AutogradContext) = some ctx := h
          cases h'
        | some cgs =>
          rw [hcg] at h
          have h' : (some (AutogradContext.mk ap ac ss (some pgs) (some cgs)
            (some (descriptor.blocks.map (fun block => block.samples)))) :
            Option AutogradContext) = some ctx := h
          cases h'
          exact ⟨rfl, rfl, rfl, (fun _ => ⟨rfl, rfl⟩),
            (fun hx => by cases hx),
            (fun _ => ⟨rfl, rfl, rfl⟩), (fun hx => by cases hx)⟩

theorem forward_invalid (ap ac : Tensor) (calculator : Calculator)
    (systems : List Sys) (fg : List String) (p : String)
    (hfind : fg.find?
      (fun parameter => parameter != "positions" && parameter != "cell") = some p) :
    RascalineAutograd.forward ap ac calculator systems fg =
      (0, some (Except.error (Err.valueError
        ("invalid parameter in forward gradients: " ++ p)))) := by
  unfold RascalineAutograd.forward
  rw [hfind]

theorem forward_ok_inv (ap ac : Tensor) (calculator : Calculator)
    (systems : List Sys) (fg : List String) (fo : ForwardOut)
    (h : (RascalineAutograd.forward ap ac calculator systems fg).2 =
      some (Except.ok fo)) :
    fg.find? (fun parameter => parameter != "positions" && parameter != "cell")
      = none ∧
    ∃ use_native, all_systems_use_native systems = some (Except.ok use_native) ∧
      fo.values_by_block = (calculator systems (CalculationOptions.mk
        (computedGradients ap ac fg) use_native)).blocks.map
        (fun block => block.values) ∧
      buildContext ap ac (structuresStart systems)
        (calculator systems (CalculationOptions.mk (computedGradients ap ac fg)
          use_native)) = some fo.ctx ∧
      (allForwardGradients fg (computedGradients ap ac fg) = true →
        fo.tensor_map = calculator systems (CalculationOptions.mk
          (computedGradients ap ac fg) use_native)) ∧
      (allForwardGradients fg (computedGradients ap ac fg) = false →
        rebuildTensorMap (calculator systems (CalculationOptions.mk
          (computedGradients ap ac fg) use_native)) fg = some fo.tensor_map) := by
  unfold RascalineAutograd.forward at h
  cases hfind : fg.find?
      (fun parameter => parameter != "positions" && parameter != "cell") with
  | some p =>
    rw [hfind] at h
    have h' : (some (Except.error (Err.valueError
      ("invalid parameter in forward gradients: " ++ p))) :
      Option (Except Err ForwardOut)) = some (Except.ok fo) := h
    cases Option.some.inj h'
  | none =>
    rw [hfind] at h
    dsimp only at h
    refine ⟨rfl, ?_⟩
    cases hnat : all_systems_use_native systems with
    | none =>
      rw [hnat] at h
      have h' : (none : Option (Except Err ForwardOut)) = some (Except.ok fo) := h
      cases h'
    | some r =>
      cases r with
      | error e =>
        rw [hnat] at h
        have h' : (some (Except.error e) : Option (Except Err ForwardOut)) =
          some (Except.ok fo) := h
        cases Option.some.inj h'
      | ok use_native =>
        rw [hnat] at h
        dsimp only at h
        refine ⟨use_native, rfl, ?_⟩
        cases hctx : buildContext ap ac (structuresStart systems)
            (calculator systems (CalculationOptions.mk (computedGradients ap ac fg)
              use_native)) with
        | none =>
          rw [hctx] at h
          have h' : (none : Option (Except Err ForwardOut)) = some (Except.ok fo) := h
          cases h'
        | some ctx0 =>
          rw [hctx] at h
          cases hafg : allForwardGradients fg (computedGradients ap ac fg) with
          | true =>
            rw [hafg] at h
            have h' : (some (Except.ok (ForwardOut.mk
              ((calculator systems (CalculationOptions.mk (computedGradients ap ac fg)
                use_native)).blocks.map (fun block => block.values)) ctx0
              (calculator systems (CalculationOptions.mk (computedGradients ap ac fg)
                use_native)))) : Option (Except Err ForwardOut)) = some (Except.ok fo) := h
            cases Option.some.inj h'
            exact ⟨rfl, rfl, (fun _ => rfl), (fun hx => by cases hx)⟩
          | false =>
            rw [hafg] at h
            cases hrtm : rebuildTensorMap (calculator systems (CalculationOptions.mk
                (computedGradients ap ac fg) use_native)) fg with
            | none =>
              rw [hrtm] at h
              have h' : (none : Option (Except Err ForwardOut)) =
                some (Except.ok fo) := h
              cases h'
            | some tm =>
              rw [hrtm] at h
              have h' : (some (Except.ok (ForwardOut.mk
                ((calculator systems (CalculationOptions.mk (computedGradients ap ac fg)
                  use_native)).blocks.map (fun block => block.values)) ctx0 tm)) :
                Option (Except Err ForwardOut)) = some (Except.ok fo) := h
              cases Option.some.inj h'
              exact ⟨rfl, rfl, (fun hx => by cases hx), (fun _ => rfl)⟩

theorem getD_replicate_zero (n p : Nat) :
    (List.replicate n (0 : ℚ)).getD p 0 = 0 := by
  rw [List.getD_eq_getElem?_getD, List.getElem?_replicate]
  split <;> rfl

theorem computePositionsGrad_unfold (ctx : AutogradContext)
    (grad_outputs : List Tensor) (gs : List GradBlock)
    (hgs : ctx.positions_gradients = some gs)
    (hlen : gs.length = grad_outputs.length) :
    computePositionsGrad ctx grad_outputs =
      (match (gs.zip grad_outputs).foldlM
          (fun acc bg => backwardPositionsBlock ctx.structures_start acc bg.1 bg.2)
          (zeros_like ctx.saved_positions).data with
      | Except.error e => Except.error e
      | Except.ok data =>
        Except.ok (Tensor.mk (zeros_like ctx.saved_positions).sizes data false)) := by
  unfold computePositionsGrad
  rw [hgs]
  dsimp only
  rw [if_pos hlen]

theorem computeCellGrad_unfold (ctx : AutogradContext)
    (grad_outputs : List Tensor) (cgs : List GradBlock) (all_samples : List Labels)
    (sd : Nat)
    (hcgs : ctx.cell_gradients = some cgs)
    (hlen : cgs.length = grad_outputs.length)
    (hss : ctx.samples = some all_samples)
    (hlen2 : all_samples.length = grad_outputs.length)
    (hfind : (all_samples.getD 0 (Labels.mk [] [])).names.findIdx?
      (fun name => name == "structure") = some sd) :
    computeCellGrad ctx grad_outputs =
      (match ((cgs.zip all_samples).zip grad_outputs).foldlM
          (fun acc bg => backwardCellBlock
            (all_samples.getD 0 (Labels.mk [] [])).names sd acc bg.1.1 bg.1.2 bg.2)
          (zeros_like ctx.saved_cells).data with
      | Except.error e => Except.error e
      | Except.ok data =>
        Except.ok (Tensor.mk (zeros_like ctx.saved_cells).sizes data false)) := by
  unfold computeCellGrad
  rw [hcgs]
  dsimp only
  rw [if_pos hlen, hss]
  dsimp only
  rw [if_pos hlen2, hfind]

theorem computeCellGrad_no_structure (ctx : AutogradContext)
    (grad_outputs : List Tensor) (cgs : List GradBlock) (all_samples : List Labels)
    (hcgs : ctx.cell_gradients = some cgs)
    (hlen : cgs.length = grad_outputs.length)
    (hss : ctx.samples = some all_samples)
    (hlen2 : all_samples.length = grad_outputs.length)
    (hfind : (all_samples.getD 0 (Labels.mk [] [])).names.findIdx?
      (fun name => name == "structure") = none) :
    computeCellGrad ctx grad_outputs = Except.error (Err.valueError
      "could not find structure in the samples, this calculator is missing it") := by
  unfold computeCellGrad
  rw [hcgs]
  dsimp only
  rw [if_pos hlen, hss]
  dsimp only
  rw [if_pos hlen2, hfind]

theorem backward_error_of_positions (ctx : AutogradContext)
    (grad_outputs : List Tensor) (e : Err) (hne : grad_outputs ≠ [])
    (hpos : ctx.saved_positions.requires_grad = true)
    (h : computePositionsGrad ctx grad_outputs = Except.error e) :
    RascalineAutograd.backward ctx grad_outputs = Except.error e := by
  unfold RascalineAutograd.backward
  rw [if_neg (by simpa using hne), hpos, h]
  exact rfl

theorem backward_error_of_cell (ctx : AutogradContext)
    (grad_outputs : List Tensor) (e : Err) (hne : grad_outputs ≠ [])
    (hpos : ctx.saved_positions.requires_grad = false)
    (hcell : ctx.saved_cells.requires_grad = true)
    (h : computeCellGrad ctx grad_outputs = Except.error e) :
    RascalineAutograd.backward ctx grad_outputs = Except.error e := by
  unfold RascalineAutograd.backward
  rw [if_neg (by simpa using hne), hpos, hcell, h]
  exact rfl

/-! ### The claims -/

/-- C1: when the positions tensor required gradients in forward, a successful
backward returns as its first slot a zero-initialised gradient tensor shaped
like the global positions tensor into which, for every block, every
gradient-sample row, and each of the 3 spatial directions, the dot product
over the flattened component×property axis of the saved forward Jacobian row
against the adjoint row at the row's local sample index has been accumulated
at flat index `(structure_offsets[structure] + atom) * 3 + direction`; and the
`structuresStart` offsets persisted by forward are the prefix sum of the
structure atom counts starting at 0. -/
theorem claim_C1_positions_backward
    (ctx : AutogradContext) (grad_outputs : List Tensor)
    (out : List (Option Tensor)) (hne : grad_outputs ≠ [])
    (hreq : ctx.saved_positions.requires_grad = true)
    (hok : RascalineAutograd.backward ctx grad_outputs = Except.ok out) :
    (∀ systems : List Sys,
      (structuresStart systems).length = systems.length ∧
      ∀ k, k < systems.length → (structuresStart systems).getD k 0 =
        ((systems.take k).map (fun system => (system.size : Int))).sum) ∧
    ∃ gs pg, ctx.positions_gradients = some gs ∧
      gs.length = grad_outputs.length ∧
      out.getD 0 none = some pg ∧
      pg.sizes = ctx.saved_positions.sizes ∧
      pg.data.length = ctx.saved_positions.data.length ∧
      (∀ bg ∈ gs.zip grad_outputs,
        bg.1.samples.names = ["sample", "structure", "atom"]) ∧
      ∀ p, p < pg.data.length → pg.data.getD p 0 =
        ((gs.zip grad_outputs).map (fun bg =>
          ((List.range bg.1.samples.count).map (fun r =>
            ((List.range 3).map (fun d =>
              if posTarget ctx.structures_start bg.1.samples r d = p then
                posContrib (listProd bg.2.sizes.tail) bg.1.values.data bg.2.data
                  bg.1.samples r d
              else 0)).sum)).sum)).sum := by
  refine ⟨?_, ?_⟩
  · intro systems
    exact ⟨structuresStart_length systems,
      fun k hk => structuresStart_getD systems k hk⟩
  · obtain ⟨p, c, hout, hptrue, _, _, _⟩ :=
      backward_ok_shape ctx grad_outputs out hne hok
    obtain ⟨pg, hp, hpg⟩ := hptrue hreq
    obtain ⟨gs, hgs, hlen, hnames, hsizes, hdata⟩ :=
      computePositionsGrad_ok ctx grad_outputs pg hpg
    have hlength : pg.data.length = ctx.saved_positions.data.length := by
      rw [hdata, scatter_length, List.length_replicate]
    refine ⟨gs, pg, hgs, hlen, ?_, hsizes, hlength, hnames, ?_⟩
    · rw [hout, List.getD_cons_zero]
      exact hp
    · intro q hq
      rw [hlength] at hq
      rw [hdata, scatter_getD _ _ _ (by rw [List.length_replicate]; exact hq),
        getD_replicate_zero, zero_add]
      simp only [positionsUpdates, positionsBlockUpdates, sumAt_flatMap, sumAt_map]

/-- Witness for C1: the hand-checked two-atom, one-block example. -/
theorem claim_C1_witness :
    ∃ gs pg, exCtxPos.positions_gradients = some gs ∧
      gs.length = [exAdjoint].length ∧
      ([some (Tensor.mk [2, 3] [2, 4, 6, 8, 10, 12] false), none, none, none,
        none, none] : List (Option Tensor)).getD 0 none = some pg ∧
      pg.sizes = exCtxPos.saved_positions.sizes ∧
      pg.data.length = exCtxPos.saved_positions.data.length ∧
      (∀ bg ∈ gs.zip [exAdjoint],
        bg.1.samples.names = ["sample", "structure", "atom"]) ∧
      ∀ p, p < pg.data.length → pg.data.getD p 0 =
        ((gs.zip [exAdjoint]).map (fun bg =>
          ((List.range bg.1.samples.count).map (fun r =>
            ((List.range 3).map (fun d =>
              if posTarget exCtxPos.structures_start bg.1.samples r d = p then
                posContrib (listProd bg.2.sizes.tail) bg.1.values.data bg.2.data
                  bg.1.samples r d
              else 0)).sum)).sum)).sum :=
  (claim_C1_positions_backward exCtxPos [exAdjoint]
    [some (Tensor.mk [2, 3] [2, 4, 6, 8, 10, 12] false), none, none, none,
      none, none]
    (by decide) rfl (by decide)).2

/-- C2: when the cell tensor required gradients in forward, a successful
backward returns as its second slot a zero-initialised gradient tensor shaped
like the global cell tensor into which, for every block, every gradient-sample
row, and each direction pair `(d1, d2)`, the dot product over the flattened
component×property axis of the saved forward Jacobian entry at leading offset
`(r*3 + d2)*3 + d1` against the adjoint row at the resolved local sample index
has been accumulated at flat index `(structure * 3 + d1) * 3 + d2`, the owning
structure being resolved through the block's saved samples at the located
`structure` column. -/
theorem claim_C2_cell_backward
    (ctx : AutogradContext) (grad_outputs : List Tensor)
    (out : List (Option Tensor)) (hne : grad_outputs ≠ [])
    (hreq : ctx.saved_cells.requires_grad = true)
    (hok : RascalineAutograd.backward ctx grad_outputs = Except.ok out) :
    ∃ cgs all_samples structure_dimension cg,
      ctx.cell_gradients = some cgs ∧
      ctx.samples = some all_samples ∧
      cgs.length = grad_outputs.length ∧
      all_samples.length = grad_outputs.length ∧
      (all_samples.getD 0 (Labels.mk [] [])).names.findIdx?
        (fun name => name == "structure") = some structure_dimension ∧
      (∀ bg ∈ (cgs.zip all_samples).zip grad_outputs,
        (all_samples.getD 0 (Labels.mk [] [])).names = bg.1.2.names ∧
        bg.1.1.samples.names = ["sample"]) ∧
      out.getD 1 none = some cg ∧
      cg.sizes = ctx.saved_cells.sizes ∧
      cg.data.length = ctx.saved_cells.data.length ∧
      ∀ p, p < cg.data.length → cg.data.getD p 0 =
        (((cgs.zip all_samples).zip grad_outputs).map (fun bg =>
          ((List.range bg.1.1.samples.count).map (fun r =>
            ((List.range 3).map (fun d1 =>
              ((List.range 3).map (fun d2 =>
                if cellTarget bg.1.2 structure_dimension bg.1.1.samples r d1 d2
                    = p then
                  cellContrib (listProd bg.2.sizes.tail) bg.1.1.values.data
                    bg.2.data bg.1.1.samples r d1 d2
                else 0)).sum)).sum)).sum)).sum := by
  obtain ⟨p, c, hout, _, _, hctrue, _⟩ :=
    backward_ok_shape ctx grad_outputs out hne hok
  obtain ⟨cg, hc, hcg⟩ := hctrue hreq
  obtain ⟨cgs, all_samples, sd, hcgs, hss, hlen, hlen2, hfind, hall, hsizes,
    hdata⟩ := computeCellGrad_ok ctx grad_outputs cg hcg
  have hlength : cg.data.length = ctx.saved_cells.data.length := by
    rw [hdata, scatter_length, List.length_replicate]
  refine ⟨cgs, all_samples, sd, cg, hcgs, hss, hlen, hlen2, hfind, hall, ?_,
    hsizes, hlength, ?_⟩
  · rw [hout, List.getD_cons_succ, List.getD_cons_zero]
    exact hc
  · intro q hq
    rw [hlength] at hq
    rw [hdata, scatter_getD _ _ _ (by rw [List.length_replicate]; exact hq),
      getD_replicate_zero, zero_add]
    simp only [cellUpdates, cellBlockUpdates, sumAt_flatMap, sumAt_map]

/-- Witness for C2: the hand-checked one-structure, one-block cell example. -/
theorem claim_C2_witness :
    ∃ cgs all_samples structure_dimension cg,
      exCtxCell.cell_gradients = some cgs ∧
      exCtxCell.samples = some all_samples ∧
      cgs.length = [exAdjoint].length ∧
      all_samples.length = [exAdjoint].length ∧
      (all_samples.getD 0 (Labels.mk [] [])).names.findIdx?
        (fun name => name == "structure") = some structure_dimension ∧
      (∀ bg ∈ (cgs.zip all_samples).zip [exAdjoint],
        (all_samples.getD 0 (Labels.mk [] [])).names = bg.1.2.names ∧
        bg.1.1.samples.names = ["sample"]) ∧
      ([none, some (Tensor.mk [1, 3, 3]
        [2, 8, 14, 4, 10, 16, 6, 12, 18] false), none, none, none, none] :
        List (Option Tensor)).getD 1 none = some cg ∧
      cg.sizes = exCtxCell.saved_cells.sizes ∧
      cg.data.length = exCtxCell.saved_cells.data.length ∧
      ∀ p, p < cg.data.length → cg.data.getD p 0 =
        (((cgs.zip all_samples).zip [exAdjoint]).map (fun bg =>
          ((List.range bg.1.1.samples.count).map (fun r =>
            ((List.range 3).map (fun d1 =>
              ((List.range 3).map (fun d2 =>
                if cellTarget bg.1.2 structure_dimension bg.1.1.samples r d1 d2
                    = p then
                  cellContrib (listProd bg.2.sizes.tail) bg.1.1.values.data
                    bg.2.data bg.1.1.samples r d1 d2
                else 0)).sum)).sum)).sum)).sum :=
  claim_C2_cell_backward exCtxCell [exAdjoint]
    [none, some (Tensor.mk [1, 3, 3] [2, 8, 14, 4, 10, 16, 6, 12, 18] false),
      none, none, none, none]
    (by decide) rfl (by decide)

/-- C3: a forward-gradients list containing a name other than "positions" or
"cell" makes forward fail with an invalid-argument error naming an offending
value, with zero calculator invocations, and with a result independent of the
calculator (the validation precedes the single calculator invocation). -/
theorem claim_C3_invalid_forward_gradient
    (ap ac : Tensor) (calculator : Calculator) (systems : List Sys)
    (fg : List String)
    (hbad : ∃ q ∈ fg, q ≠ "positions" ∧ q ≠ "cell") :
    ∃ q ∈ fg, q ≠ "positions" ∧ q ≠ "cell" ∧
      RascalineAutograd.forward ap ac calculator systems fg =
        (0, some (Except.error (Err.valueError
          ("invalid parameter in forward gradients: " ++ q)))) ∧
      ∀ calculator2 : Calculator,
        RascalineAutograd.forward ap ac calculator2 systems fg =
          RascalineAutograd.forward ap ac calculator systems fg := by
  have hsome : (fg.find? (fun parameter =>
      parameter != "positions" && parameter != "cell")).isSome := by
    rw [List.find?_isSome]
    obtain ⟨q, hq, h1, h2⟩ := hbad
    exact ⟨q, hq, by simp [bne_iff_ne, h1, h2]⟩
  obtain ⟨q, hfind⟩ := Option.isSome_iff_exists.mp hsome
  have hpred := List.find?_some hfind
  have hmem := List.mem_of_find?_eq_some hfind
  simp only [Bool.and_eq_true, bne_iff_ne] at hpred
  refine ⟨q, hmem, hpred.1, hpred.2,
    forward_invalid ap ac calculator systems fg q hfind, ?_⟩
  intro calculator2
  rw [forward_invalid ap ac calculator2 systems fg q hfind,
    forward_invalid ap ac calculator systems fg q hfind]

/-- Witness for C3: requesting the unrecognized channel "energy". -/
theorem claim_C3_witness :
    ∃ q ∈ (["energy"] : List String), q ≠ "positions" ∧ q ≠ "cell" ∧
      RascalineAutograd.forward exPositionsNoGrad exCellsNoGrad exCalculator
        exSystems ["energy"] =
        (0, some (Except.error (Err.valueError
          ("invalid parameter in forward gradients: " ++ q)))) ∧
      ∀ calculator2 : Calculator,
        RascalineAutograd.forward exPositionsNoGrad exCellsNoGrad calculator2
          exSystems ["energy"] =
        RascalineAutograd.forward exPositionsNoGrad exCellsNoGrad exCalculator
          exSystems ["energy"] :=
  claim_C3_invalid_forward_gradient exPositionsNoGrad exCellsNoGrad exCalculator
    exSystems ["energy"] ⟨"energy", by decide, by decide, by decide⟩

/-- C4: the derivative channels handed to the calculator are exactly the union
of the explicitly requested channels and the channels whose global input
tensor requires grad: "positions" is computed iff requested or the positions
tensor requires grad, "cell" iff requested or the cell tensor requires grad,
and nothing else is ever computed. -/
theorem claim_C4_computed_channels (ap ac : Tensor) (fg : List String) :
    ("positions" ∈ computedGradients ap ac fg ↔
      "positions" ∈ fg ∨ ap.requires_grad = true) ∧
    ("cell" ∈ computedGradients ap ac fg ↔
      "cell" ∈ fg ∨ ac.requires_grad = true) ∧
    ∀ q ∈ computedGradients ap ac fg, q = "positions" ∨ q = "cell" := by
  by_cases h1 : "positions" ∈ fg <;> by_cases h2 : ap.requires_grad = true <;>
    by_cases h3 : "cell" ∈ fg <;> by_cases h4 : ac.requires_grad = true <;>
    simp [computedGradients, h1, h2, h3, h4]

/-- Witness for C4: evaluated at concrete tensors and request list. -/
theorem claim_C4_witness :
    ("positions" ∈ computedGradients exPositionsNoGrad exCells ["positions"] ↔
      "positions" ∈ (["positions"] : List String) ∨
        exPositionsNoGrad.requires_grad = true) ∧
    ("cell" ∈ computedGradients exPositionsNoGrad exCells ["positions"] ↔
      "cell" ∈ (["positions"] : List String) ∨ exCells.requires_grad = true) ∧
    ∀ q ∈ computedGradients exPositionsNoGrad exCells ["positions"],
      q = "positions" ∨ q = "cell" :=
  claim_C4_computed_channels exPositionsNoGrad exCells ["positions"]

/-- C5: on success, when every computed channel was explicitly requested the
visible tensor map is the calculator's output unmodified; otherwise it is a
fresh per-block collection with the same keys, each block keeping the original
values, samples, components and properties, carrying a gradient named `q`
exactly when `q` was explicitly requested (and then equal to the calculator's
gradient), with computed-but-not-requested gradients elided. -/
theorem claim_C5_visible_output
    (ap ac : Tensor) (calculator : Calculator) (systems : List Sys)
    (fg : List String) (fo : ForwardOut)
    (hok : (RascalineAutograd.forward ap ac calculator systems fg).2 =
      some (Except.ok fo)) :
    ∃ use_native, all_systems_use_native systems = some (Except.ok use_native) ∧
      (allForwardGradients fg (computedGradients ap ac fg) = true →
        fo.tensor_map = calculator systems (CalculationOptions.mk
          (computedGradients ap ac fg) use_native)) ∧
      (allForwardGradients fg (computedGradients ap ac fg) = false →
        fo.tensor_map.keys = (calculator systems (CalculationOptions.mk
          (computedGradients ap ac fg) use_native)).keys ∧
        List.Forall₂ (fun (ob nb : TensorBlock) =>
          nb.values = ob.values ∧ nb.samples = ob.samples ∧
          nb.components = ob.components ∧ nb.properties = ob.properties ∧
          ∀ q, nb.gradient q = (if fg.contains q then ob.gradient q else none))
        (calculator systems (CalculationOptions.mk (computedGradients ap ac fg)
          use_native)).blocks fo.tensor_map.blocks) := by
  obtain ⟨-, use_native, hnat, -, -, htrue, hfalse⟩ :=
    forward_ok_inv ap ac calculator systems fg fo hok
  refine ⟨use_native, hnat, htrue, ?_⟩
  intro hafg
  exact rebuildTensorMap_inv _ _ _ (hfalse hafg)

/-- Witness for C5: the mixed-channels example (positions requested, cell
required implicitly). -/
theorem claim_C5_witness :
    ∃ use_native,
      all_systems_use_native exSystems = some (Except.ok use_native) ∧
      (allForwardGradients ["positions"]
          (computedGradients exPositionsNoGrad exCells ["positions"]) = true →
        exForwardOutMixed.tensor_map = exCalculator exSystems
          (CalculationOptions.mk
            (computedGradients exPositionsNoGrad exCells ["positions"])
            use_native)) ∧
      (allForwardGradients ["positions"]
          (computedGradients exPositionsNoGrad exCells ["positions"]) = false →
        exForwardOutMixed.tensor_map.keys = (exCalculator exSystems
          (CalculationOptions.mk
            (computedGradients exPositionsNoGrad exCells ["positions"])
            use_native)).keys ∧
        List.Forall₂ (fun (ob nb : TensorBlock) =>
          nb.values = ob.values ∧ nb.samples = ob.samples ∧
          nb.components = ob.components ∧ nb.properties = ob.properties ∧
          ∀ q, nb.gradient q =
            (if (["positions"] : List String).contains q then ob.gradient q
              else none))
        (exCalculator exSystems (CalculationOptions.mk
          (computedGradients exPositionsNoGrad exCells ["positions"])
          use_native)).blocks exForwardOutMixed.tensor_map.blocks) :=
  claim_C5_visible_output exPositionsNoGrad exCells exCalculator exSystems
    ["positions"] exForwardOutMixed (by decide)

/-- Counterexample to C6 as stated: with `forward_gradients = ["positions"]`
and a positions tensor that does not require grad, the positions channel is
among the computed derivative channels, the forward call succeeds, yet the
context holds no positions-gradient blocks. -/
theorem claim_C6_counterexample :
    "positions" ∈ computedGradients exPositionsNoGrad exCellsNoGrad
      ["positions"] ∧
    (RascalineAutograd.forward exPositionsNoGrad exCellsNoGrad exCalculator
      exSystems ["positions"]).2 = some (Except.ok exForwardOutRequested) ∧
    exForwardOutRequested.ctx.positions_gradients = none :=
  ⟨by decide, by decide, rfl⟩

/-- C6 (amended): after every successful forward call the context holds the
saved input tensors and `structures_start`; when the positions TENSOR required
gradients the context holds a standalone copy of every block's
positions-gradient sub-block; when the cell tensor required gradients likewise
for the cell sub-blocks plus every block's own samples; and when a tensor did
not require gradients the corresponding entries are absent (in particular no
reference to the full output tensor map is stored). -/
theorem claim_C6_amended_context
    (ap ac : Tensor) (calculator : Calculator) (systems : List Sys)
    (fg : List String) (fo : ForwardOut)
    (hok : (RascalineAutograd.forward ap ac calculator systems fg).2 =
      some (Except.ok fo)) :
    ∃ use_native, all_systems_use_native systems = some (Except.ok use_native) ∧
      fo.ctx.saved_positions = ap ∧ fo.ctx.saved_cells = ac ∧
      fo.ctx.structures_start = structuresStart systems ∧
      (ap.requires_grad = true → ∃ gs, fo.ctx.positions_gradients = some gs ∧
        List.Forall₂ (fun (block : TensorBlock) (gradient : GradBlock) =>
          block.gradient "positions" = some gradient)
          (calculator systems (CalculationOptions.mk (computedGradients ap ac fg)
            use_native)).blocks gs) ∧
      (ap.requires_grad = false → fo.ctx.positions_gradients = none) ∧
      (ac.requires_grad = true → ∃ gs, fo.ctx.cell_gradients = some gs ∧
        List.Forall₂ (fun (block : TensorBlock) (gradient : GradBlock) =>
          block.gradient "cell" = some gradient)
          (calculator systems (CalculationOptions.mk (computedGradients ap ac fg)
            use_native)).blocks gs ∧
        fo.ctx.samples = some ((calculator systems (CalculationOptions.mk
          (computedGradients ap ac fg) use_native)).blocks.map
          (fun block => block.samples))) ∧
      (ac.requires_grad = false →
        fo.ctx.cell_gradients = none ∧ fo.ctx.samples = none) := by
  obtain ⟨-, use_native, hnat, -, hctx, -, -⟩ :=
    forward_ok_inv ap ac calculator systems fg fo hok
  obtain ⟨h1, h2, h3, h4, h5, h6, h7⟩ := buildContext_inv _ _ _ _ _ hctx
  refine ⟨use_native, hnat, h1, h2, h3, ?_, h5, ?_, h7⟩
  · intro hreq
    obtain ⟨heq, hsome⟩ := h4 hreq
    obtain ⟨gs, hgs⟩ := Option.isSome_iff_exists.mp hsome
    exact ⟨gs, by rw [heq, hgs], extract_gradient_blocks_inv _ _ _ hgs⟩
  · intro hreq
    obtain ⟨heq, hsome, hsamp⟩ := h6 hreq
    obtain ⟨gs, hgs⟩ := Option.isSome_iff_exists.mp hsome
    exact ⟨gs, by rw [heq, hgs], extract_gradient_blocks_inv _ _ _ hgs, hsamp⟩

/-- Witness for C6 (amended): the mixed-channels example. -/
theorem claim_C6_witness :
    ∃ use_native,
      all_systems_use_native exSystems = some (Except.ok use_native) ∧
      exForwardOutMixed.ctx.saved_positions = exPositionsNoGrad ∧
      exForwardOutMixed.ctx.saved_cells = exCells ∧
      exForwardOutMixed.ctx.structures_start = structuresStart exSystems ∧
      (exPositionsNoGrad.requires_grad = true →
        ∃ gs, exForwardOutMixed.ctx.positions_gradients = some gs ∧
        List.Forall₂ (fun (block : TensorBlock) (gradient : GradBlock) =>
          block.gradient "positions" = some gradient)
          (exCalculator exSystems (CalculationOptions.mk
            (computedGradients exPositionsNoGrad exCells ["positions"])
            use_native)).blocks gs) ∧
      (exPositionsNoGrad.requires_grad = false →
        exForwardOutMixed.ctx.positions_gradients = none) ∧
      (exCells.requires_grad = true →
        ∃ gs, exForwardOutMixed.ctx.cell_gradients = some gs ∧
        List.Forall₂ (fun (block : TensorBlock) (gradient : GradBlock) =>
          block.gradient "cell" = some gradient)
          (exCalculator exSystems (CalculationOptions.mk
            (computedGradients exPositionsNoGrad exCells ["positions"])
            use_native)).blocks gs ∧
        exForwardOutMixed.ctx.samples = some ((exCalculator exSystems
          (CalculationOptions.mk
            (computedGradients exPositionsNoGrad exCells ["positions"])
            use_native)).blocks.map (fun block => block.samples))) ∧
      (exCells.requires_grad = false →
        exForwardOutMixed.ctx.cell_gradients = none ∧
        exForwardOutMixed.ctx.samples = none) :=
  claim_C6_amended_context exPositionsNoGrad exCells exCalculator exSystems
    ["positions"] exForwardOutMixed (by decide)

/-- C7: in the backward cell path, a first block whose saved samples lack a
`structure` column makes the call fail with the invalid-argument error about
missing structure membership; and (once the column is located) a block whose
saved samples have a different column layout than the first makes the call
abort with an invariant violation. -/
theorem claim_C7_cell_structure_errors
    (ctx : AutogradContext) (grad_outputs : List Tensor)
    (cgs : List GradBlock) (all_samples : List Labels)
    (hne : grad_outputs ≠ [])
    (hpos : ctx.saved_positions.requires_grad = false)
    (hreq : ctx.saved_cells.requires_grad = true)
    (hcgs : ctx.cell_gradients = some cgs)
    (hss : ctx.samples = some all_samples)
    (hlen : cgs.length = grad_outputs.length)
    (hlen2 : all_samples.length = grad_outputs.length) :
    ("structure" ∉ (all_samples.getD 0 (Labels.mk [] [])).names →
      RascalineAutograd.backward ctx grad_outputs =
        Except.error (Err.valueError
          "could not find structure in the samples, this calculator is missing it")) ∧
    (∀ structure_dimension,
      (all_samples.getD 0 (Labels.mk [] [])).names.findIdx?
        (fun name => name == "structure") = some structure_dimension →
      (∃ bg ∈ (cgs.zip all_samples).zip grad_outputs,
        bg.1.2.names ≠ (all_samples.getD 0 (Labels.mk [] [])).names) →
      ∃ msg, RascalineAutograd.backward ctx grad_outputs =
        Except.error (Err.assertError msg)) := by
  constructor
  · intro hnos
    have hfind : (all_samples.getD 0 (Labels.mk [] [])).names.findIdx?
        (fun name => name == "structure") = none := by
      rw [List.findIdx?_eq_none_iff]
      intro x hx
      rw [beq_eq_false_iff_ne]
      intro hxe
      exact hnos (hxe ▸ hx)
    exact backward_error_of_cell ctx grad_outputs _ hne hpos hreq
      (computeCellGrad_no_structure ctx grad_outputs cgs all_samples hcgs hlen
        hss hlen2 hfind)
  · intro sd hfind hbad
    cases hfold : ((cgs.zip all_samples).zip grad_outputs).foldlM
        (fun acc bg => backwardCellBlock
          (all_samples.getD 0 (Labels.mk [] [])).names sd acc bg.1.1 bg.1.2 bg.2)
        (zeros_like ctx.saved_cells).data with
    | ok data =>
      obtain ⟨hall, -⟩ := cellFold_ok _ _ _ _ _ hfold
      obtain ⟨bg, hmem, hbadn⟩ := hbad
      exact absurd (hall bg hmem).1.symm hbadn
    | error e =>
      have hcc : computeCellGrad ctx grad_outputs = Except.error e := by
        rw [computeCellGrad_unfold ctx grad_outputs cgs all_samples sd hcgs hlen
          hss hlen2 hfind, hfold]
      have hb : RascalineAutograd.backward ctx grad_outputs = Except.error e :=
        backward_error_of_cell ctx grad_outputs e hne hpos hreq hcc
      rcases cellFold_error _ _ _ _ _ hfold with he | he
      · exact ⟨"first_sample_names == block_samples->names()", he ▸ hb⟩
      · exact ⟨"samples->names() == [sample]", he ▸ hb⟩

/-- Witness for C7: a context whose saved samples carry only a `center`
column. -/
theorem claim_C7_witness :
    ("structure" ∉ (([exBadBlockSamples].getD 0 (Labels.mk [] []))).names →
      RascalineAutograd.backward exCtxCellNoStruct [exAdjoint] =
        Except.error (Err.valueError
          "could not find structure in the samples, this calculator is missing it")) ∧
    (∀ structure_dimension,
      (([exBadBlockSamples].getD 0 (Labels.mk [] []))).names.findIdx?
        (fun name => name == "structure") = some structure_dimension →
      (∃ bg ∈ (([exCellGradBlock].zip [exBadBlockSamples])).zip [exAdjoint],
        bg.1.2.names ≠ (([exBadBlockSamples].getD 0 (Labels.mk [] []))).names) →
      ∃ msg, RascalineAutograd.backward exCtxCellNoStruct [exAdjoint] =
        Except.error (Err.assertError msg)) :=
  claim_C7_cell_structure_errors exCtxCellNoStruct [exAdjoint]
    [exCellGradBlock] [exBadBlockSamples]
    (by decide) rfl rfl rfl rfl (by decide) (by decide)

/-- C8: in the backward positions path, a saved positions-gradient sub-block
whose sample-index columns are not exactly `sample`, `structure`, `atom` in
that order makes the whole backward call abort with the invariant violation
for the sample-column layout. -/
theorem claim_C8_positions_sample_layout
    (ctx : AutogradContext) (grad_outputs : List Tensor) (gs : List GradBlock)
    (hne : grad_outputs ≠ [])
    (hreq : ctx.saved_positions.requires_grad = true)
    (hgs : ctx.positions_gradients = some gs)
    (hlen : gs.length = grad_outputs.length)
    (hbad : ∃ bg ∈ gs.zip grad_outputs,
      bg.1.samples.names ≠ ["sample", "structure", "atom"]) :
    RascalineAutograd.backward ctx grad_outputs =
      Except.error (Err.assertError
        "samples->names() == [sample, structure, atom]") := by
  cases hfold : (gs.zip grad_outputs).foldlM
      (fun acc bg => backwardPositionsBlock ctx.structures_start acc bg.1 bg.2)
      (zeros_like ctx.saved_positions).data with
  | ok data =>
    obtain ⟨hall, -⟩ := positionsFold_ok _ _ _ _ hfold
    obtain ⟨bg, hmem, hbadn⟩ := hbad
    exact absurd (hall bg hmem) hbadn
  | error e =>
    have he := positionsFold_error _ _ _ _ hfold
    have hcp : computePositionsGrad ctx grad_outputs = Except.error e := by
      rw [computePositionsGrad_unfold ctx grad_outputs gs hgs hlen, hfold]
    rw [he] at hcp
    exact backward_error_of_positions ctx grad_outputs _ hne hreq hcp

/-- Witness for C8: a gradient block whose sample columns are in the wrong
order. -/
theorem claim_C8_witness :
    RascalineAutograd.backward exCtxPosBad [exAdjoint] =
      Except.error (Err.assertError
        "samples->names() == [sample, structure, atom]") :=
  claim_C8_positions_sample_layout exCtxPosBad [exAdjoint] [exBadPosGradBlock]
    (by decide) rfl rfl (by decide)
    ⟨(exBadPosGradBlock, exAdjoint), by decide, by decide⟩

/-- C9: backward on zero adjoint tensors returns "no gradient" for both
differentiable inputs, and every successful backward returns exactly the two
gradient slots followed by four "no gradient" placeholders. -/
theorem claim_C9_return_shape (ctx : AutogradContext) :
    RascalineAutograd.backward ctx [] =
      Except.ok [none, none, none, none, none, none] ∧
    ∀ grad_outputs out,
      RascalineAutograd.backward ctx grad_outputs = Except.ok out →
      ∃ positions_grad cell_grad,
        out = [positions_grad, cell_grad, none, none, none, none] := by
  refine ⟨backward_nil ctx, ?_⟩
  intro grad_outputs out h
  by_cases hne : grad_outputs = []
  · subst hne
    rw [backward_nil ctx] at h
    cases Except.ok.inj h
    exact ⟨none, none, rfl⟩
  · obtain ⟨p, c, hout, -⟩ := backward_ok_shape ctx grad_outputs out hne h
    exact ⟨p, c, hout⟩

/-- Witness for C9: evaluated on a concrete context. -/
theorem claim_C9_witness :
    RascalineAutograd.backward exCtxNoGrad [] =
      Except.ok [none, none, none, none, none, none] ∧
    ∃ positions_grad cell_grad,
      ([none, none, none, none, none, none] : List (Option Tensor)) =
        [positions_grad, cell_grad, none, none, none, none] :=
  ⟨(claim_C9_return_shape exCtxNoGrad).1,
    (claim_C9_return_shape exCtxNoGrad).2 []
      [none, none, none, none, none, none]
      (claim_C9_return_shape exCtxNoGrad).1⟩

/-- C10: the native-system determination reads the first structure
unconditionally — on the empty sequence the access is out of bounds (modelled
as `none`); on every non-empty sequence it either returns the shared flag of
the first structure (when all structures agree) or throws the invalid-argument
error about inconsistent pre-defined neighbor lists (when they disagree). -/
theorem claim_C10_native_system_check :
    all_systems_use_native [] = none ∧
    ∀ systems : List Sys, systems ≠ [] →
      ∃ first, systems.head? = some first ∧
        ((systems.all (fun system => system.use_native == first.use_native)) =
            true →
          all_systems_use_native systems = some (Except.ok first.use_native)) ∧
        ((systems.all (fun system => system.use_native == first.use_native)) =
            false →
          all_systems_use_native systems = some (Except.error (Err.valueError
            "either all or none of the systems should have pre-defined neighbor lists"))) := by
  refine ⟨rfl, ?_⟩
  intro systems hne
  cases systems with
  | nil => exact absurd rfl hne
  | cons first rest =>
    refine ⟨first, rfl, ?_, ?_⟩
    · intro hall
      unfold all_systems_use_native
      rw [List.head?_cons]
      dsimp only
      rw [if_pos hall]
    · intro hall
      unfold all_systems_use_native
      rw [List.head?_cons]
      dsimp only
      rw [if_neg (by rw [hall]; exact Bool.false_ne_true)]

/-- Witness for C10: a single system with pre-defined neighbor lists absent. -/
theorem claim_C10_witness :
    ∃ first, exSystems.head? = some first ∧
      ((exSystems.all (fun system => system.use_native == first.use_native)) =
          true →
        all_systems_use_native exSystems = some (Except.ok first.use_native)) ∧
      ((exSystems.all (fun system => system.use_native == first.use_native)) =
          false →
        all_systems_use_native exSystems = some (Except.error (Err.valueError
          "either all or none of the systems should have pre-defined neighbor lists"))) :=
  (claim_C10_native_system_check).2 exSystems (by decide)

end RascalineTorch
